import Mathlib

/-!
Verification development for a session-based authentication layer over a
todo application (Express + Passport local strategy + Mongoose user store).

The embedding below translates the JavaScript source into executable Lean
definitions:

* controllers/auth.js  -> postLogin, logout, postSignup
* config/passport.js   -> localStrategyVerify, serializeUser, deserializeUser
* models/User.js       -> Identity, saveNewUser (pre-save bcrypt hook)
* middleware/auth.js   -> ensureAuth, ensureGuest
* routes/todos.js      -> todosRoutes

External collaborators (the validator.js and bcrypt npm libraries, the
express-session store) are modelled by small executable functions whose
doc comments state exactly which library behaviour they capture.
-/

namespace TodoAuth

/-- Lowercases a single ASCII letter; models the per-character behaviour of
JavaScript toLowerCase for the ASCII range used by emails here. -/
def lowerChar (c : Char) : Char :=
  if 'A' ≤ c ∧ c ≤ 'Z' then Char.ofNat (c.toNat + 32) else c

/-- Model of JavaScript String.prototype.toLowerCase restricted to ASCII. -/
def strToLower (s : String) : String :=
  String.mk (s.data.map lowerChar)

/-- Splits a character list at every occurrence of the separator, keeping
empty segments, like String.prototype.split does in JavaScript. -/
def splitOnChar (sep : Char) : List Char → List (List Char)
  | [] => [[]]
  | c :: rest =>
    let r := splitOnChar sep rest
    if c == sep then [] :: r
    else
      match r with
      | [] => [[c]]
      | h :: t => (c :: h) :: t

/-- Characters the validator.js default email local-part pattern accepts
(restricted to the unquoted, ASCII subset relevant here); whitespace is
not among them. -/
def localAllowedChar (c : Char) : Bool :=
  c.isAlphanum || c == '.' || c == '_' || c == '%' || c == '+' || c == '-' ||
  c == '!' || c == '#' || c == '$' || c == '&' || c == '*' || c == '/' ||
  c == '=' || c == '?' || c == '^' || c == '~'

/-- Model of the validator.js check on the local part of an email: nonempty,
made of allowed characters, and with no empty dot-separated segment. -/
def localPartOk (cs : List Char) : Bool :=
  decide (0 < cs.length) && cs.all localAllowedChar &&
  (splitOnChar '.' cs).all (fun p => decide (0 < p.length))

/-- Model of one hostname label check inside validator.js isFQDN: nonempty,
at most 63 characters, alphanumeric or hyphen only (so any whitespace makes
the label invalid), and no leading or trailing hyphen. -/
def labelOk (cs : List Char) : Bool :=
  decide (0 < cs.length) && decide (cs.length ≤ 63) &&
  cs.all (fun c => c.isAlphanum || c == '-') &&
  !(cs.headD 'a' == '-') && !(cs.getLastD 'a' == '-')

/-- Model of the validator.js required top-level-domain check: at least two
characters, all alphabetic. -/
def tldOk (cs : List Char) : Bool :=
  decide (2 ≤ cs.length) && cs.all Char.isAlpha

/-- Model of validator.js isFQDN with its default options: at least two
dot-separated labels, each label valid, and a valid top-level domain. -/
def fqdnOk (cs : List Char) : Bool :=
  let labels := splitOnChar '.' cs
  decide (2 ≤ labels.length) && labels.all labelOk && tldOk (labels.getLastD [])

/-- Model of validator.isEmail with default options: one at-sign separating a
valid local part from a fully qualified domain name. The input is not
trimmed, so leading or trailing whitespace makes the email invalid (a space
fails both the local-part character set and the FQDN label check). -/
def vIsEmail (s : String) : Bool :=
  match splitOnChar '@' s.data with
  | [localPart, domain] => localPartOk localPart && fqdnOk domain
  | _ => false

/-- Model of validator.isEmpty with default options: true exactly when the
string has length zero. -/
def vIsEmpty (s : String) : Bool :=
  decide (s.data.length = 0)

/-- Model of validator.isLength with a minimum only. -/
def vIsLengthMin (s : String) (n : Nat) : Bool :=
  decide (n ≤ s.data.length)

/-- Model of validator.normalizeEmail with gmail_remove_dots disabled: for the
non-provider-specific domains used here it lowercases the whole address
(all_lowercase defaults to true) and performs no other change. It does not
remove whitespace. -/
def vNormalizeEmail (s : String) : String :=
  strToLower s

/-- Length of a modelled bcrypt salt (bcrypt salts are 22 base64 characters). -/
def bcryptSaltLen : Nat := 22

/-- Model of bcrypt.genSalt(10): produces a 22-character salt from a seed.
Only the shape matters for the properties proved here, not unpredictability. -/
def mkSalt (seed : Nat) : String :=
  String.mk (List.replicate bcryptSaltLen (Char.ofNat (97 + seed % 26)))

/-- Model of bcrypt.hash: the stored digest embeds the algorithm/cost tag,
the salt, and a digest body determined by the plaintext, exactly as a real
bcrypt digest string is laid out. The tag makes every digest strictly longer
than its plaintext. -/
def bcryptHash (salt plain : String) : String :=
  "$2b$10$" ++ salt ++ plain

/-- Model of bcrypt.compare: extract the embedded salt from the stored digest,
recompute the digest for the candidate, and compare with the stored value. -/
def bcryptCompare (candidate stored : String) : Bool :=
  stored == String.mk ("$2b$10$".data ++ (stored.data.drop 7).take bcryptSaltLen ++ candidate.data)

/-- User record persisted by the Mongoose model in models/User.js: userName,
email, and the (hashed) password; password is optional, matching the schema
where externally-provisioned accounts may lack one. The id models the
database-assigned document id used by serializeUser/deserializeUser. -/
structure Identity where
  id : Nat
  userName : String
  email : String
  password : Option String
deriving Repr, DecidableEq

/-- The credential store: the collection of persisted user records. -/
abbrev UserStore := List Identity

/-- Model of User.findById from config/passport.js deserialization. -/
def findById (users : UserStore) (i : Nat) : Option Identity :=
  users.find? (fun u => u.id == i)

/-- Model of the User.findOne email query used by the local strategy. -/
def findByEmail (users : UserStore) (e : String) : Option Identity :=
  users.find? (fun u => u.email == e)

/-- Model of the pre-save hook in models/User.js applied to a new user: the
plaintext password is replaced by its bcrypt hash before the record is
persisted (a new document always has a modified password). -/
def saveNewUser (salt : String) (freshId : Nat) (userName email password : String) : Identity :=
  { id := freshId, userName := userName, email := email,
    password := some (bcryptHash salt password) }

/-- Outcome of the LocalStrategy verify callback in config/passport.js:
either done(null, false, msg) or done(null, user). -/
inductive AuthOutcome
  | failure (info : String)
  | success (user : Identity)
deriving Repr, DecidableEq

/-- The LocalStrategy verify callback from config/passport.js: look the user
up by lowercased email; unknown email, missing local password, and wrong
password each produce their own failure message from the source. -/
def localStrategyVerify (users : UserStore) (email password : String) : AuthOutcome :=
  match users.find? (fun u => u.email == strToLower email) with
  | none => .failure ("Email " ++ email ++ " not found.")
  | some user =>
    match user.password with
    | none => .failure "Your account was registered using a sign-in provider. To enable password login, sign in using a provider, and then set a password under your user profile."
    | some stored =>
      if bcryptCompare password stored then .success user
      else .failure "Invalid email or password."

/-- Model of passport.serializeUser from config/passport.js: the session
payload is exactly the user id. -/
def serializeUser (u : Identity) : Nat := u.id

/-- Model of passport.deserializeUser from config/passport.js: resolve the id
with User.findById and pass (err, user) through; a missing user yields no
error, only an absent user. -/
def deserializeUser (users : UserStore) (i : Nat) : Option String × Option Identity :=
  (none, findById users i)

/-- Per-session data relevant to the claims: the passport identity reference
written by serializeUser, and the returnTo target read by postLogin. -/
structure SessionData where
  passportUser : Option Nat
  returnTo : Option String
deriving Repr, DecidableEq

/-- Modelled from the spec: the session middleware and passport.session treat
a session whose identity reference is missing, or whose referenced identity
no longer resolves, as anonymous (section 4.4 of the spec); this caller-side
treatment lives in the passport library, outside this repository. -/
def resolveSessionIdentity (users : UserStore) (sess : SessionData) : Option Identity :=
  match sess.passportUser with
  | none => none
  | some i => (deserializeUser users i).2

/-- Per-request state seen by the guards: the deserialized user and the
session. -/
structure Request where
  user : Option Identity
  session : SessionData
deriving Repr, DecidableEq

/-- Model of req.isAuthenticated(): true exactly when a user was resolved for
the request. -/
def isAuthenticated (req : Request) : Bool := req.user.isSome

/-- What a guard does with a request: call next() or short-circuit with a
redirect. -/
inductive GuardResult
  | callNext
  | redirectTo (path : String)
deriving Repr, DecidableEq

/-- Model of ensureAuth from middleware/auth.js: continue when authenticated,
otherwise redirect to the landing route; the request is returned unchanged on
both branches because the source reads req and never writes it. -/
def ensureAuth (req : Request) : GuardResult × Request :=
  if isAuthenticated req then (.callNext, req) else (.redirectTo "/", req)

/-- Model of ensureGuest from middleware/auth.js: continue when anonymous,
otherwise redirect to the dashboard; the request is returned unchanged on
both branches. -/
def ensureGuest (req : Request) : GuardResult × Request :=
  if !(isAuthenticated req) then (.callNext, req) else (.redirectTo "/todos", req)

/-- First-order tag for the guards that appear in route tables. -/
inductive Guard
  | ensureAuthG
  | ensureGuestG
deriving Repr, DecidableEq

/-- Dispatch from a guard tag to the guard function. -/
def applyGuard : Guard → Request → GuardResult × Request
  | .ensureAuthG, r => ensureAuth r
  | .ensureGuestG, r => ensureGuest r

/-- HTTP methods used by the route tables. -/
inductive HttpMethod
  | get
  | post
  | put
  | delete
deriving Repr, DecidableEq

/-- One route entry: method, path, the middleware chain in front of the
handler, and the handler name. -/
structure Route where
  method : HttpMethod
  path : String
  guards : List Guard
  handlerName : String
deriving Repr, DecidableEq

/-- The route table of routes/todos.js, line for line: only GET / carries
ensureAuth; the four mutation routes have no middleware before the handler. -/
def todosRoutes : List Route :=
  [ { method := .get, path := "/", guards := [.ensureAuthG], handlerName := "getTodos" },
    { method := .post, path := "/createTodo", guards := [], handlerName := "createTodo" },
    { method := .put, path := "/markComplete", guards := [], handlerName := "markComplete" },
    { method := .put, path := "/markIncomplete", guards := [], handlerName := "markIncomplete" },
    { method := .delete, path := "/deleteTodo", guards := [], handlerName := "deleteTodo" } ]

/-- Runs a middleware chain: the handler is reached only if every guard calls
next(). -/
def runGuards : List Guard → Request → GuardResult × Request
  | [], r => (.callNext, r)
  | g :: gs, r =>
    match applyGuard g r with
    | (.callNext, r2) => runGuards gs r2
    | (.redirectTo p, r2) => (.redirectTo p, r2)

/-- Whether the route handler executes for the given request. -/
def handlerRuns (route : Route) (req : Request) : Bool :=
  match runGuards route.guards req with
  | (.callNext, _) => true
  | _ => false

/-- Client-observable outcome of POST /login, from exports.postLogin in
controllers/auth.js: the redirect target, the flashed error messages, the
flashed success messages, and the session identity reference afterwards. -/
structure LoginResponse where
  redirect : String
  flashErrors : List String
  flashSuccess : List String
  sessionUser : Option Nat
deriving Repr, DecidableEq

/-- Validation performed by exports.postLogin before authenticating: email
shape and nonempty password, with the exact messages from the source. -/
def loginValidationErrors (email password : String) : List String :=
  (if !(vIsEmail email) then ["Please enter a valid email address."] else []) ++
  (if vIsEmpty password then ["Password cannot be blank."] else [])

/-- Model of exports.postLogin from controllers/auth.js: validate, normalize
the email, run the local strategy; on failure flash the strategy info and
redirect to /login, on success log the user in (serializeUser) and redirect
to session.returnTo or /todos. -/
def postLogin (users : UserStore) (sess : SessionData) (email password : String) : LoginResponse :=
  let errs := loginValidationErrors email password
  if errs.length ≠ 0 then
    { redirect := "/login", flashErrors := errs, flashSuccess := [],
      sessionUser := sess.passportUser }
  else
    match localStrategyVerify users (vNormalizeEmail email) password with
    | .failure info =>
      { redirect := "/login", flashErrors := [info], flashSuccess := [],
        sessionUser := sess.passportUser }
    | .success user =>
      { redirect := sess.returnTo.getD "/todos", flashErrors := [],
        flashSuccess := ["Success! You are logged in."],
        sessionUser := some (serializeUser user) }

/-- The part of a login response the client can observe: where it is sent and
what messages are flashed at it. -/
def loginObservable (r : LoginResponse) : String × List String × List String :=
  (r.redirect, r.flashErrors, r.flashSuccess)

/-- Outcome of POST /signup, from exports.postSignup in controllers/auth.js. -/
inductive SignupOutcome
  | invalid (msgs : List String)
  | duplicate
  | created (user : Identity)
deriving Repr, DecidableEq

/-- Full result of POST /signup: outcome, redirect target, credential store
afterwards, and session identity reference afterwards. -/
structure SignupResponse where
  outcome : SignupOutcome
  redirect : String
  users : UserStore
  sessionUser : Option Nat
deriving Repr, DecidableEq

/-- Validation performed by exports.postSignup: email shape, password length
at least 8, and confirmation equality, with the exact messages from the
source; no check mentions the username. -/
def signupValidationErrors (email password confirmPassword : String) : List String :=
  (if !(vIsEmail email) then ["Please enter a valid email address."] else []) ++
  (if !(vIsLengthMin password 8) then ["Password must be at least 8 characters long"] else []) ++
  (if password != confirmPassword then ["Passwords do not match"] else [])

/-- The findOne duplicate query of exports.postSignup: an existing record
matching the email or the username. The same predicate is what the unique
indexes declared in models/User.js reject on insert. -/
def duplicateQueryHit (users : UserStore) (userName email : String) : Bool :=
  (users.find? (fun u => u.email == email || u.userName == userName)).isSome

/-- Model of exports.postSignup from controllers/auth.js: validate, normalize
the email, check for an existing account with findOne, then save the new user
(whose password the pre-save hook hashes) and log them in. -/
def postSignup (users : UserStore) (salt : String) (freshId : Nat) (sess : SessionData)
    (userName email password confirmPassword : String) : SignupResponse :=
  let errs := signupValidationErrors email password confirmPassword
  if errs.length ≠ 0 then
    { outcome := .invalid errs, redirect := "../signup", users := users,
      sessionUser := sess.passportUser }
  else
    let email2 := vNormalizeEmail email
    if duplicateQueryHit users userName email2 then
      { outcome := .duplicate, redirect := "../signup", users := users,
        sessionUser := sess.passportUser }
    else
      let user := saveNewUser salt freshId userName email2 password
      { outcome := .created user, redirect := "/todos", users := user :: users,
        sessionUser := some (serializeUser user) }

/-- The server-side session store: records keyed by session token. -/
abbrev SessionStore := List (String × SessionData)

/-- Looks a session record up by its token. -/
def lookupSession (store : SessionStore) (token : String) : Option SessionData :=
  (store.find? (fun e => e.1 == token)).map (fun e => e.2)

/-- Model of req.logout() as used in exports.logout: the authentication
reference is removed from the session; the rest of the session survives. -/
def reqLogout (store : SessionStore) (token : String) : SessionStore :=
  store.map (fun e =>
    if e.1 == token then (e.1, { e.2 with passportUser := none }) else e)

/-- Model of req.session.destroy from exports.logout: on success the whole
record is removed from the store; on a store error the record stays (the
authentication reference was already cleared by req.logout) and the error is
only logged, with the message from the source. -/
def sessionDestroy (store : SessionStore) (token : String) (destroyErr : Bool) :
    SessionStore × List String :=
  if destroyErr then (store, ["Error : Failed to destroy the session during logout."])
  else (store.filter (fun e => !(e.1 == token)), [])

/-- Everything exports.logout leaves behind: the redirect, the session store,
req.user, and the console log lines. -/
structure LogoutResponse where
  redirect : String
  store : SessionStore
  userAfter : Option Identity
  logs : List String
deriving Repr, DecidableEq

/-- Model of exports.logout from controllers/auth.js: req.logout clears the
authentication reference, req.session.destroy removes the record (errors are
logged only), req.user is set to null, and the response redirects to the
landing route unconditionally. -/
def logout (store : SessionStore) (token : String) (destroyErr : Bool) : LogoutResponse :=
  let store1 := reqLogout store token
  let (store2, errLogs) := sessionDestroy store1 token destroyErr
  { redirect := "/", store := store2, userAfter := none,
    logs := "User has logged out." :: errLogs }

/-- The identity a later request presenting this token resolves to: look the
session up, then resolve its identity reference. -/
def identityForToken (store : SessionStore) (users : UserStore) (token : String) :
    Option Identity :=
  match lookupSession store token with
  | none => none
  | some sd => resolveSessionIdentity users sd

/-- One in-flight signup attempt for the concurrency model: the fields the
duplicate check and the insert look at. -/
structure SignupAttempt where
  userName : String
  email : String
  password : String
deriving Repr, DecidableEq

/-- Per-attempt outcome under concurrency: the create succeeded, the findOne
existence check reported a duplicate (flash + redirect), or the save was
rejected by the unique index the schema declares (a duplicate key error
forwarded to next(err)). -/
inductive ConcOutcome
  | createdOk
  | dupFromHandler
  | dupFromIndex
deriving Repr, DecidableEq

/-- How far one in-flight signup has progressed: before its findOne check,
between the check and the save, or finished. -/
inductive AttemptPhase
  | beforeCheck
  | beforeSave
  | finished (o : ConcOutcome)
deriving Repr, DecidableEq

/-- One scheduler step of a single signup attempt, after validation and email
normalization: the findOne existence check, then the save, which the store
(unique index) rejects if a matching record was inserted in between. -/
def stepSignup (store : UserStore) (salt : String) (freshId : Nat) (a : SignupAttempt) :
    AttemptPhase → UserStore × AttemptPhase
  | .beforeCheck =>
    if duplicateQueryHit store a.userName a.email then (store, .finished .dupFromHandler)
    else (store, .beforeSave)
  | .beforeSave =>
    if duplicateQueryHit store a.userName a.email then (store, .finished .dupFromIndex)
    else (saveNewUser salt freshId a.userName a.email a.password :: store,
          .finished .createdOk)
  | .finished o => (store, .finished o)

/-- The fixed data of a two-attempt race: each attempt with its salt and the
document id the store would assign it. -/
structure ConcCtx where
  saltA : String
  saltB : String
  idA : Nat
  idB : Nat
  attemptA : SignupAttempt
  attemptB : SignupAttempt

/-- Shared state of the two-attempt race. -/
structure ConcState where
  store : UserStore
  phaseA : AttemptPhase
  phaseB : AttemptPhase
deriving Repr, DecidableEq

/-- One scheduler step of the race: true schedules attempt A, false schedules
attempt B; a finished attempt does nothing when scheduled. -/
def concStep (ctx : ConcCtx) (s : ConcState) (pickA : Bool) : ConcState :=
  if pickA then
    let r := stepSignup s.store ctx.saltA ctx.idA ctx.attemptA s.phaseA
    { s with store := r.1, phaseA := r.2 }
  else
    let r := stepSignup s.store ctx.saltB ctx.idB ctx.attemptB s.phaseB
    { s with store := r.1, phaseB := r.2 }

/-- Runs the race under a schedule. -/
def concRun (ctx : ConcCtx) : List Bool → ConcState → ConcState
  | [], s => s
  | c :: cs, s => concRun ctx cs (concStep ctx s c)

/-- The initial race state over a given store. -/
def concInit (store : UserStore) : ConcState :=
  { store := store, phaseA := .beforeCheck, phaseB := .beforeCheck }

/-- A schedule under which both two-step attempts run to completion. -/
def scheduleOk (sched : List Bool) : Prop :=
  sched.length = 4 ∧ sched.count true = 2

/-- The concrete stored record produced by the signup example of the spec
(username alice, normalized email, bcrypt-hashed password). -/
def aliceUser : Identity :=
  { id := 0, userName := "alice", email := "alice@example.com",
    password := some (bcryptHash (mkSalt 0) "longpass1") }

end TodoAuth

open TodoAuth

/-- The bcrypt tag makes every modelled digest strictly longer than the
plaintext it hashes, so a stored digest never equals the plaintext. -/
lemma bcryptHash_ne_plain (salt p : String) : bcryptHash salt p ≠ p := by
  intro h
  have hl := congrArg String.length h
  rw [bcryptHash, String.length_append, String.length_append] at hl
  have h7 : ("$2b$10$" : String).length = 7 := rfl
  rw [h7] at hl
  omega

/-- C1: for a login attempt whose email passes shape validation, the code
produces different flashed messages for an unknown email and for a wrong
password on an existing account, so the two failure runs are observably
distinguishable to the client even though both redirect to /login; evaluated
at the concrete failing inputs. -/
theorem login_unknown_email_wrong_password_distinguishable :
    vIsEmail "nouser@x.com" = true
    ∧ vIsEmail "alice@example.com" = true
    ∧ (postLogin [aliceUser] ⟨none, none⟩ "nouser@x.com" "whatever1").redirect
        = (postLogin [aliceUser] ⟨none, none⟩ "alice@example.com" "wrongpass1").redirect
    ∧ (postLogin [aliceUser] ⟨none, none⟩ "nouser@x.com" "whatever1").flashErrors
        = ["Email nouser@x.com not found."]
    ∧ (postLogin [aliceUser] ⟨none, none⟩ "alice@example.com" "wrongpass1").flashErrors
        = ["Invalid email or password."]
    ∧ loginObservable (postLogin [aliceUser] ⟨none, none⟩ "nouser@x.com" "whatever1")
        ≠ loginObservable (postLogin [aliceUser] ⟨none, none⟩ "alice@example.com" "wrongpass1") := by
  decide

/-- C2: in the routes/todos.js table the four mutation routes carry no guard,
so their handlers run even for a request with no authenticated identity,
while GET / carries ensureAuth and its handler does not run for such a
request. -/
theorem todo_mutation_routes_unguarded (req : Request) (h : req.user = none) :
    (∀ r ∈ todosRoutes,
        (r.path = "/createTodo" ∨ r.path = "/markComplete" ∨
         r.path = "/markIncomplete" ∨ r.path = "/deleteTodo") →
        r.guards = [] ∧ handlerRuns r req = true)
    ∧ ∀ r ∈ todosRoutes, r.path = "/" →
        r.guards = [Guard.ensureAuthG] ∧ handlerRuns r req = false := by
  constructor
  · intro r hr hp
    fin_cases hr <;>
      simp_all [handlerRuns, runGuards, applyGuard, ensureAuth, isAuthenticated]
  · intro r hr hp
    fin_cases hr <;>
      simp_all [handlerRuns, runGuards, applyGuard, ensureAuth, isAuthenticated]

/-- Closed instance of the C2 theorem at a concrete anonymous request. -/
theorem todo_mutation_routes_unguarded_witness :
    (∀ r ∈ todosRoutes,
        (r.path = "/createTodo" ∨ r.path = "/markComplete" ∨
         r.path = "/markIncomplete" ∨ r.path = "/deleteTodo") →
        r.guards = [] ∧ handlerRuns r ⟨none, ⟨none, none⟩⟩ = true)
    ∧ ∀ r ∈ todosRoutes, r.path = "/" →
        r.guards = [Guard.ensureAuthG] ∧ handlerRuns r ⟨none, ⟨none, none⟩⟩ = false :=
  todo_mutation_routes_unguarded ⟨none, ⟨none, none⟩⟩ rfl

/-- C7: ensureAuth calls next() exactly when the resolved identity is present;
for an anonymous request it redirects to / unchanged and any route guarded by
it never reaches its handler. -/
theorem ensureAuth_continues_iff_identity_present (req : Request) :
    ((ensureAuth req).1 = GuardResult.callNext ↔ req.user.isSome = true)
    ∧ (req.user = none →
        ensureAuth req = (GuardResult.redirectTo "/", req)
        ∧ ∀ route : Route, route.guards = [Guard.ensureAuthG] →
            handlerRuns route req = false) := by
  constructor
  · cases hu : req.user <;> simp [ensureAuth, isAuthenticated, hu]
  · intro h
    constructor
    · simp [ensureAuth, isAuthenticated, h]
    · intro route hg
      simp [handlerRuns, runGuards, hg, applyGuard, ensureAuth, isAuthenticated, h]

/-- Closed instance of the C7 theorem at a concrete anonymous request. -/
theorem ensureAuth_continues_iff_identity_present_witness :
    ((ensureAuth ⟨none, ⟨none, none⟩⟩).1 = GuardResult.callNext
        ↔ (Request.user ⟨none, ⟨none, none⟩⟩).isSome = true)
    ∧ ((Request.user ⟨none, ⟨none, none⟩⟩) = none →
        ensureAuth ⟨none, ⟨none, none⟩⟩ = (GuardResult.redirectTo "/", ⟨none, ⟨none, none⟩⟩)
        ∧ ∀ route : Route, route.guards = [Guard.ensureAuthG] →
            handlerRuns route ⟨none, ⟨none, none⟩⟩ = false) :=
  ensureAuth_continues_iff_identity_present ⟨none, ⟨none, none⟩⟩

/-- A login that flashes a success message redirects to session.returnTo when
set and to /todos otherwise, following exports.postLogin. -/
lemma postLogin_flash_success_redirect (users : UserStore) (sess : SessionData)
    (email password : String)
    (h : (postLogin users sess email password).flashSuccess ≠ []) :
    (postLogin users sess email password).redirect = sess.returnTo.getD "/todos" := by
  by_cases hc : (loginValidationErrors email password).length ≠ 0
  · simp [postLogin, hc] at h
  · cases hm : localStrategyVerify users (vNormalizeEmail email) password with
    | failure info => simp [postLogin, hc, hm] at h
    | success u => simp [postLogin, hc, hm]

/-- C8: the guards mutate no state: on both branches ensureAuth and
ensureGuest return the request (hence the session) unchanged; in particular
ensureAuth records no returnTo, so when nothing else set returnTo a later
successful login redirects to the default /todos. -/
theorem guards_hold_no_state (req : Request) :
    (ensureAuth req).2 = req
    ∧ (ensureGuest req).2 = req
    ∧ (ensureAuth req).2.session.returnTo = req.session.returnTo
    ∧ (req.session.returnTo = none →
        ∀ (users : UserStore) (email password : String),
          (postLogin users (ensureAuth req).2.session email password).flashSuccess ≠ [] →
          (postLogin users (ensureAuth req).2.session email password).redirect = "/todos") := by
  have h1 : (ensureAuth req).2 = req := by
    unfold ensureAuth
    split <;> rfl
  have h2 : (ensureGuest req).2 = req := by
    unfold ensureGuest
    split <;> rfl
  refine ⟨h1, h2, by rw [h1], ?_⟩
  intro hrt users email password h
  rw [h1] at h ⊢
  rw [postLogin_flash_success_redirect users req.session email password h, hrt]
  rfl

/-- Closed instance of the C8 theorem at a concrete anonymous request. -/
theorem guards_hold_no_state_witness :
    (ensureAuth ⟨none, ⟨none, none⟩⟩).2 = ⟨none, ⟨none, none⟩⟩
    ∧ (ensureGuest ⟨none, ⟨none, none⟩⟩).2 = ⟨none, ⟨none, none⟩⟩
    ∧ (ensureAuth ⟨none, ⟨none, none⟩⟩).2.session.returnTo
        = (SessionData.returnTo ⟨none, none⟩)
    ∧ ((SessionData.returnTo ⟨none, none⟩) = none →
        ∀ (users : UserStore) (email password : String),
          (postLogin users (ensureAuth ⟨none, ⟨none, none⟩⟩).2.session email password).flashSuccess ≠ [] →
          (postLogin users (ensureAuth ⟨none, ⟨none, none⟩⟩).2.session email password).redirect = "/todos") :=
  guards_hold_no_state ⟨none, ⟨none, none⟩⟩

/-- C6 counterexample: the signup input of the claim, with the trailing space
in the email, fails shape validation (validator.isEmail does not trim), so
the attempt produces a ValidationError and stores nothing instead of
succeeding. -/
theorem signup_trailing_space_email_fails_validation :
    vIsEmail "Alice@Example.com " = false
    ∧ (postSignup [] (mkSalt 0) 0 ⟨none, none⟩ "alice" "Alice@Example.com " "longpass1" "longpass1").outcome
        = SignupOutcome.invalid ["Please enter a valid email address."]
    ∧ (postSignup [] (mkSalt 0) 0 ⟨none, none⟩ "alice" "Alice@Example.com " "longpass1" "longpass1").users
        = [] := by
  decide

/-- C6 amended: the same example without the trailing space succeeds: the
stored email is alice@example.com and a subsequent login with that email and
the same password authenticates, flashes success, and redirects to /todos. -/
theorem signup_example_without_trailing_space_succeeds :
    (postSignup [] (mkSalt 0) 0 ⟨none, none⟩ "alice" "Alice@Example.com" "longpass1" "longpass1").outcome
        = SignupOutcome.created aliceUser
    ∧ aliceUser.email = "alice@example.com"
    ∧ findByEmail (postSignup [] (mkSalt 0) 0 ⟨none, none⟩ "alice" "Alice@Example.com" "longpass1" "longpass1").users
        "alice@example.com" = some aliceUser
    ∧ (postLogin (postSignup [] (mkSalt 0) 0 ⟨none, none⟩ "alice" "Alice@Example.com" "longpass1" "longpass1").users
        ⟨none, none⟩ "alice@example.com" "longpass1").flashSuccess
        = ["Success! You are logged in."]
    ∧ (postLogin (postSignup [] (mkSalt 0) 0 ⟨none, none⟩ "alice" "Alice@Example.com" "longpass1" "longpass1").users
        ⟨none, none⟩ "alice@example.com" "longpass1").redirect = "/todos"
    ∧ (postLogin (postSignup [] (mkSalt 0) 0 ⟨none, none⟩ "alice" "Alice@Example.com" "longpass1" "longpass1").users
        ⟨none, none⟩ "alice@example.com" "longpass1").sessionUser = some 0 := by
  decide

/-- C10: signup validation looks only at the email shape, the password length
and the confirmation; with an empty userName and otherwise valid fields no
validation error is produced and the handler proceeds to the duplicate check
and, when that finds nothing, to the create attempt with the empty
username. -/
theorem signup_accepts_empty_username
    (users : UserStore) (salt : String) (freshId : Nat) (sess : SessionData)
    (email pw : String)
    (hEmail : vIsEmail email = true) (hLen : 8 ≤ pw.length) :
    signupValidationErrors email pw pw = []
    ∧ ((postSignup users salt freshId sess "" email pw pw).outcome = SignupOutcome.duplicate
         ∧ duplicateQueryHit users "" (vNormalizeEmail email) = true
       ∨ ∃ u, (postSignup users salt freshId sess "" email pw pw).outcome = SignupOutcome.created u
           ∧ u.userName = ""
           ∧ (postSignup users salt freshId sess "" email pw pw).users = u :: users) := by
  have hLen' : vIsLengthMin pw 8 = true := decide_eq_true hLen
  have hv : signupValidationErrors email pw pw = [] := by
    simp [signupValidationErrors, hEmail, hLen']
  refine ⟨hv, ?_⟩
  by_cases hd : duplicateQueryHit users "" (vNormalizeEmail email) = true
  · exact Or.inl ⟨by simp [postSignup, hv, hd], hd⟩
  · have hd' : duplicateQueryHit users "" (vNormalizeEmail email) = false := by
      simpa using hd
    exact Or.inr ⟨saveNewUser salt freshId "" (vNormalizeEmail email) pw,
      by simp [postSignup, hv, hd'], rfl, by simp [postSignup, hv, hd']⟩

/-- Closed instance of the C10 theorem at a concrete valid input. -/
theorem signup_accepts_empty_username_witness :
    signupValidationErrors "bob@example.com" "longpass1" "longpass1" = []
    ∧ ((postSignup [] (mkSalt 0) 0 ⟨none, none⟩ "" "bob@example.com" "longpass1" "longpass1").outcome
          = SignupOutcome.duplicate
        ∧ duplicateQueryHit [] "" (vNormalizeEmail "bob@example.com") = true
       ∨ ∃ u, (postSignup [] (mkSalt 0) 0 ⟨none, none⟩ "" "bob@example.com" "longpass1" "longpass1").outcome
            = SignupOutcome.created u
          ∧ u.userName = ""
          ∧ (postSignup [] (mkSalt 0) 0 ⟨none, none⟩ "" "bob@example.com" "longpass1" "longpass1").users
            = u :: []) :=
  signup_accepts_empty_username [] (mkSalt 0) 0 ⟨none, none⟩ "bob@example.com" "longpass1"
    (by decide) (by decide)

/-- C3: when postSignup reports a created user, the store gained exactly that
record, its password field holds the bcrypt digest of the submitted password
and never the plaintext, and findByEmail on the normalized email returns it;
since this save is the only operation in the source that writes a user
record, the never-plaintext invariant is preserved by every user write. -/
theorem signup_never_stores_plaintext_password
    (users : UserStore) (salt : String) (freshId : Nat) (sess : SessionData)
    (uname email password confirm : String) (u : Identity)
    (h : (postSignup users salt freshId sess uname email password confirm).outcome
        = SignupOutcome.created u) :
    (postSignup users salt freshId sess uname email password confirm).users = u :: users
    ∧ u.password = some (bcryptHash salt password)
    ∧ findByEmail (postSignup users salt freshId sess uname email password confirm).users
        (vNormalizeEmail email) = some u
    ∧ ∀ s, u.password = some s → s ≠ password := by
  by_cases hc : (signupValidationErrors email password confirm).length ≠ 0
  · simp [postSignup, hc] at h
  · by_cases hd : duplicateQueryHit users uname (vNormalizeEmail email) = true
    · simp [postSignup, hc, hd] at h
    · have hd' : duplicateQueryHit users uname (vNormalizeEmail email) = false := by
        simpa using hd
      have hu : u = saveNewUser salt freshId uname (vNormalizeEmail email) password := by
        have h2 := h
        simp [postSignup, hc, hd'] at h2
        exact h2.symm
      subst hu
      refine ⟨by simp [postSignup, hc, hd'], rfl, ?_, ?_⟩
      · simp [postSignup, hc, hd', findByEmail, List.find?, saveNewUser]
      · intro s hs
        have hsb : s = bcryptHash salt password := by
          simpa [saveNewUser] using hs.symm
        rw [hsb]
        exact bcryptHash_ne_plain salt password

/-- Closed instance of the C3 theorem at the concrete signup example. -/
theorem signup_never_stores_plaintext_password_witness :
    (postSignup [] (mkSalt 0) 0 ⟨none, none⟩ "alice" "Alice@Example.com" "longpass1" "longpass1").users
        = aliceUser :: []
    ∧ aliceUser.password = some (bcryptHash (mkSalt 0) "longpass1")
    ∧ findByEmail (postSignup [] (mkSalt 0) 0 ⟨none, none⟩ "alice" "Alice@Example.com" "longpass1" "longpass1").users
        (vNormalizeEmail "Alice@Example.com") = some aliceUser
    ∧ ∀ s, aliceUser.password = some s → s ≠ "longpass1" :=
  signup_never_stores_plaintext_password [] (mkSalt 0) 0 ⟨none, none⟩
    "alice" "Alice@Example.com" "longpass1" "longpass1" aliceUser (by decide)

/-- C5: the session payload is exactly the identity id; deserialization
resolves it via findById and reports no error for a missing id, and a session
whose id no longer resolves is treated as anonymous: no identity is resolved,
isAuthenticated is false, and the guard denies with a redirect instead of
erroring the request. -/
theorem serialize_id_only_and_missing_identity_anonymous
    (u : Identity) (users : UserStore) (i : Nat) (rt : Option String)
    (h : findById users i = none) :
    serializeUser u = u.id
    ∧ deserializeUser users i = (none, findById users i)
    ∧ resolveSessionIdentity users ⟨some i, rt⟩ = none
    ∧ isAuthenticated ⟨resolveSessionIdentity users ⟨some i, rt⟩, ⟨some i, rt⟩⟩ = false
    ∧ (ensureAuth ⟨resolveSessionIdentity users ⟨some i, rt⟩, ⟨some i, rt⟩⟩).1
        = GuardResult.redirectTo "/" := by
  have h3 : resolveSessionIdentity users ⟨some i, rt⟩ = none := by
    simp [resolveSessionIdentity, deserializeUser, h]
  exact ⟨rfl, rfl, h3, by simp [isAuthenticated, h3],
    by simp [ensureAuth, isAuthenticated, h3]⟩

/-- Closed instance of the C5 theorem: the id 5 resolves to no stored user. -/
theorem serialize_id_only_and_missing_identity_anonymous_witness :
    serializeUser aliceUser = aliceUser.id
    ∧ deserializeUser [aliceUser] 5 = (none, findById [aliceUser] 5)
    ∧ resolveSessionIdentity [aliceUser] ⟨some 5, none⟩ = none
    ∧ isAuthenticated ⟨resolveSessionIdentity [aliceUser] ⟨some 5, none⟩, ⟨some 5, none⟩⟩ = false
    ∧ (ensureAuth ⟨resolveSessionIdentity [aliceUser] ⟨some 5, none⟩, ⟨some 5, none⟩⟩).1
        = GuardResult.redirectTo "/" :=
  serialize_id_only_and_missing_identity_anonymous aliceUser [aliceUser] 5 none (by decide)

/-- Looking a token up after req.logout finds the same record with the
authentication reference cleared. -/
lemma find?_reqLogout (store : SessionStore) (token : String) :
    (reqLogout store token).find? (fun e => e.1 == token)
      = (store.find? (fun e => e.1 == token)).map
          (fun e => (e.1, { e.2 with passportUser := none })) := by
  induction store with
  | nil => rfl
  | cons e rest ih =>
    by_cases he : (e.1 == token) = true
    · simp [reqLogout, List.find?, he]
    · have he' : (e.1 == token) = false := by simpa using he
      simpa [reqLogout, List.find?, he'] using ih

/-- Session-store view of find?_reqLogout. -/
lemma lookupSession_reqLogout (store : SessionStore) (token : String) :
    lookupSession (reqLogout store token) token
      = (lookupSession store token).map (fun sd => { sd with passportUser := none }) := by
  unfold lookupSession
  rw [find?_reqLogout]
  cases store.find? (fun e => e.1 == token) <;> rfl

/-- After a successful destroy the token no longer resolves to a record. -/
lemma lookupSession_filter_out (store : SessionStore) (token : String) :
    lookupSession (store.filter (fun e => !(e.1 == token))) token = none := by
  induction store with
  | nil => rfl
  | cons e rest ih =>
    by_cases he : (e.1 == token) = true
    · simp only [List.filter, he, Bool.not_true]
      exact ih
    · have he' : (e.1 == token) = false := by simpa using he
      simp only [List.filter, he', Bool.not_false]
      simp [lookupSession, List.find?, he']

/-- C4: logout redirects to / unconditionally and nulls req.user; a destroy
error is only logged and changes neither of those; on success the entire
session record is gone from the store; and in every case a later
requireAuthenticated check for the pre-logout token resolves no identity and
redirects to /. -/
theorem logout_destroys_session_and_redirects
    (store : SessionStore) (users : UserStore) (token : String) (destroyErr : Bool) :
    (logout store token destroyErr).redirect = "/"
    ∧ (logout store token destroyErr).userAfter = none
    ∧ (destroyErr = false →
        lookupSession (logout store token destroyErr).store token = none)
    ∧ identityForToken (logout store token destroyErr).store users token = none
    ∧ (ensureAuth ⟨identityForToken (logout store token destroyErr).store users token,
        ⟨none, none⟩⟩).1 = GuardResult.redirectTo "/" := by
  cases destroyErr with
  | false =>
    have hl : lookupSession (logout store token false).store token = none := by
      simp [logout, sessionDestroy, lookupSession_filter_out]
    refine ⟨rfl, rfl, fun _ => hl, ?_, ?_⟩
    · simp [identityForToken, hl]
    · simp [ensureAuth, isAuthenticated, identityForToken, hl]
  | true =>
    have hl : identityForToken (logout store token true).store users token = none := by
      have hr : (logout store token true).store = reqLogout store token := by
        simp [logout, sessionDestroy]
      rw [identityForToken, hr, lookupSession_reqLogout]
      cases lookupSession store token with
      | none => rfl
      | some sd => simp [resolveSessionIdentity]
    exact ⟨rfl, rfl, fun hfalse => by simp at hfalse, hl,
      by simp [ensureAuth, isAuthenticated, hl]⟩

/-- Closed instance of the C4 theorem at a concrete one-session store. -/
theorem logout_destroys_session_and_redirects_witness :
    (logout [("tok", ⟨some 0, none⟩)] "tok" false).redirect = "/"
    ∧ (logout [("tok", ⟨some 0, none⟩)] "tok" false).userAfter = none
    ∧ (false = false →
        lookupSession (logout [("tok", ⟨some 0, none⟩)] "tok" false).store "tok" = none)
    ∧ identityForToken (logout [("tok", ⟨some 0, none⟩)] "tok" false).store [aliceUser] "tok" = none
    ∧ (ensureAuth ⟨identityForToken (logout [("tok", ⟨some 0, none⟩)] "tok" false).store [aliceUser] "tok",
        ⟨none, none⟩⟩).1 = GuardResult.redirectTo "/" :=
  logout_destroys_session_and_redirects [("tok", ⟨some 0, none⟩)] [aliceUser] "tok" false

/-- A list of four booleans is literally a four-element list. -/
lemma exists_four_of_length (l : List Bool) (h : l.length = 4) :
    ∃ a b c d, l = [a, b, c, d] := by
  obtain _ | ⟨a, l⟩ := l
  · simp at h
  obtain _ | ⟨b, l⟩ := l
  · simp at h
  obtain _ | ⟨c, l⟩ := l
  · simp at h
  obtain _ | ⟨d, l⟩ := l
  · simp at h
  obtain _ | ⟨e, l⟩ := l
  · exact ⟨a, b, c, d, rfl⟩
  · simp at h

/-- Inserting a record with a matching email makes the duplicate query (and
the unique index) hit. -/
lemma duplicateQueryHit_cons_of_email (u : Identity) (store : UserStore)
    (uname email : String) (h : u.email = email) :
    duplicateQueryHit (u :: store) uname email = true := by
  have hp : (u.email == email || u.userName == uname) = true := by simp [h]
  simp [duplicateQueryHit, List.find?, hp]

/-- Inserting a record with a matching username also makes the duplicate
query (and the unique index) hit: the findOne predicate and the schema
indexes match on email or on userName. -/
lemma duplicateQueryHit_cons_of_userName (u : Identity) (store : UserStore)
    (uname email : String) (h : u.userName = uname) :
    duplicateQueryHit (u :: store) uname email = true := by
  have hp : (u.email == email || u.userName == uname) = true := by simp [h]
  simp [duplicateQueryHit, List.find?, hp]

/-- C9: under every interleaving of two signup attempts sharing the same
normalized email or the same username, over a store containing neither
account, exactly one attempt creates the record and the other observes a
duplicate, either at its findOne check or as a unique-index rejection of its
save; and there is an interleaving in which both findOne checks pass and only
the store-level unique index stops the second insert, so the handler
check-then-insert sequence alone does not enforce uniqueness. -/
theorem concurrent_signup_exactly_one_success
    (ctx : ConcCtx) (store0 : UserStore)
    (hkey : ctx.attemptA.email = ctx.attemptB.email
      ∨ ctx.attemptA.userName = ctx.attemptB.userName)
    (hA : duplicateQueryHit store0 ctx.attemptA.userName ctx.attemptA.email = false)
    (hB : duplicateQueryHit store0 ctx.attemptB.userName ctx.attemptB.email = false)
    (sched : List Bool) (hs : scheduleOk sched) :
    ((concRun ctx sched (concInit store0)).phaseA = AttemptPhase.finished ConcOutcome.createdOk
       ∧ ((concRun ctx sched (concInit store0)).phaseB = AttemptPhase.finished ConcOutcome.dupFromHandler
          ∨ (concRun ctx sched (concInit store0)).phaseB = AttemptPhase.finished ConcOutcome.dupFromIndex)
     ∨ (concRun ctx sched (concInit store0)).phaseB = AttemptPhase.finished ConcOutcome.createdOk
       ∧ ((concRun ctx sched (concInit store0)).phaseA = AttemptPhase.finished ConcOutcome.dupFromHandler
          ∨ (concRun ctx sched (concInit store0)).phaseA = AttemptPhase.finished ConcOutcome.dupFromIndex))
    ∧ ∃ sched2, scheduleOk sched2
        ∧ (concRun ctx sched2 (concInit store0)).phaseA = AttemptPhase.finished ConcOutcome.createdOk
        ∧ (concRun ctx sched2 (concInit store0)).phaseB = AttemptPhase.finished ConcOutcome.dupFromIndex := by
  obtain ⟨hlen, hcount⟩ := hs
  obtain ⟨a, b, c, d, rfl⟩ := exists_four_of_length sched hlen
  have hAB : duplicateQueryHit
      (saveNewUser ctx.saltA ctx.idA ctx.attemptA.userName ctx.attemptA.email ctx.attemptA.password :: store0)
      ctx.attemptB.userName ctx.attemptB.email = true := by
    rcases hkey with h | h
    · exact duplicateQueryHit_cons_of_email _ _ _ _ (by simp [saveNewUser, h])
    · exact duplicateQueryHit_cons_of_userName _ _ _ _ (by simp [saveNewUser, h])
  have hBA : duplicateQueryHit
      (saveNewUser ctx.saltB ctx.idB ctx.attemptB.userName ctx.attemptB.email ctx.attemptB.password :: store0)
      ctx.attemptA.userName ctx.attemptA.email = true := by
    rcases hkey with h | h
    · exact duplicateQueryHit_cons_of_email _ _ _ _ (by simp [saveNewUser, h])
    · exact duplicateQueryHit_cons_of_userName _ _ _ _ (by simp [saveNewUser, h])
  refine ⟨?_, [true, false, true, false], ⟨by decide, by decide⟩, ?_, ?_⟩
  · cases a <;> cases b <;> cases c <;> cases d <;>
      first
        | exact absurd hcount (by decide)
        | simp [concRun, concStep, concInit, stepSignup, hA, hB, hAB, hBA]
  · simp [concRun, concStep, concInit, stepSignup, hA, hB, hAB]
  · simp [concRun, concStep, concInit, stepSignup, hA, hB, hAB]

/-- Closed instance of the C9 theorem: two concrete attempts with the same
email raced under the check-check-save-save interleaving. -/
theorem concurrent_signup_exactly_one_success_witness :
    ((concRun ⟨mkSalt 0, mkSalt 1, 0, 1, ⟨"alice", "a@b.com", "longpass1"⟩, ⟨"bob", "a@b.com", "longpass2"⟩⟩
        [true, true, false, false] (concInit [])).phaseA = AttemptPhase.finished ConcOutcome.createdOk
       ∧ ((concRun ⟨mkSalt 0, mkSalt 1, 0, 1, ⟨"alice", "a@b.com", "longpass1"⟩, ⟨"bob", "a@b.com", "longpass2"⟩⟩
            [true, true, false, false] (concInit [])).phaseB = AttemptPhase.finished ConcOutcome.dupFromHandler
          ∨ (concRun ⟨mkSalt 0, mkSalt 1, 0, 1, ⟨"alice", "a@b.com", "longpass1"⟩, ⟨"bob", "a@b.com", "longpass2"⟩⟩
            [true, true, false, false] (concInit [])).phaseB = AttemptPhase.finished ConcOutcome.dupFromIndex)
     ∨ (concRun ⟨mkSalt 0, mkSalt 1, 0, 1, ⟨"alice", "a@b.com", "longpass1"⟩, ⟨"bob", "a@b.com", "longpass2"⟩⟩
          [true, true, false, false] (concInit [])).phaseB = AttemptPhase.finished ConcOutcome.createdOk
       ∧ ((concRun ⟨mkSalt 0, mkSalt 1, 0, 1, ⟨"alice", "a@b.com", "longpass1"⟩, ⟨"bob", "a@b.com", "longpass2"⟩⟩
            [true, true, false, false] (concInit [])).phaseA = AttemptPhase.finished ConcOutcome.dupFromHandler
          ∨ (concRun ⟨mkSalt 0, mkSalt 1, 0, 1, ⟨"alice", "a@b.com", "longpass1"⟩, ⟨"bob", "a@b.com", "longpass2"⟩⟩
            [true, true, false, false] (concInit [])).phaseA = AttemptPhase.finished ConcOutcome.dupFromIndex))
    ∧ ∃ sched2, scheduleOk sched2
        ∧ (concRun ⟨mkSalt 0, mkSalt 1, 0, 1, ⟨"alice", "a@b.com", "longpass1"⟩, ⟨"bob", "a@b.com", "longpass2"⟩⟩
            sched2 (concInit [])).phaseA = AttemptPhase.finished ConcOutcome.createdOk
        ∧ (concRun ⟨mkSalt 0, mkSalt 1, 0, 1, ⟨"alice", "a@b.com", "longpass1"⟩, ⟨"bob", "a@b.com", "longpass2"⟩⟩
            sched2 (concInit [])).phaseB = AttemptPhase.finished ConcOutcome.dupFromIndex :=
  concurrent_signup_exactly_one_success
    ⟨mkSalt 0, mkSalt 1, 0, 1, ⟨"alice", "a@b.com", "longpass1"⟩, ⟨"bob", "a@b.com", "longpass2"⟩⟩
    [] (by decide) (by decide) (by decide) [true, true, false, false] ⟨by decide, by decide⟩
